import Mathlib

/-!
Shallow embedding of the client-side session and document-orchestration
layer of `src/frontend/Front.js` (a browser client for a document
management service), together with theorems settling the specification
claims about it.

Modelling conventions:
* The mutable module globals `currentUser`, `documents`, `accessToken`
  and the persisted `localStorage` token are gathered into `ClientState`;
  the grid produced by `renderDocuments` is the `rendered` field.
* Network interaction is modelled by passing the outcome of the `fetch`
  (a `FetchOutcome`) into each operation: an HTTP response with a status
  and a body, or a transport failure (rejected promise).
* Response bodies are modelled by `Body`: a JSON array of documents, a
  JSON object with an optional string `detail` field, or an unparseable
  body (on which `response.json()` throws).
* Timestamps are integers (milliseconds since the epoch, as in JS
  `Date.getTime()`); the calendar day of a timestamp abstracts JS
  `toDateString()` as the floor division by the number of milliseconds
  per day.
-/

namespace Front

/-- A user profile as returned by `GET /users/me`. -/
structure UserProfile where
  username : String
  role : String
  deriving Repr, DecidableEq

/-- A document as the client renders it (fields read in `renderDocuments`
and `filterDocuments`; `upload_date` is kept as epoch milliseconds). -/
structure Document where
  docid : String
  filename : String
  category : String
  author : Option String
  upload_date : Int
  summary : Option String
  deriving Repr, DecidableEq

/-- The client's mutable state: the module globals of `Front.js`
(`currentUser`, `accessToken`, `documents`), the persisted
`localStorage` entry under the key `access_token`, and the currently
rendered document grid. -/
structure ClientState where
  currentUser : Option UserProfile
  accessToken : Option String
  localToken : Option String
  documents : List Document
  rendered : List Document
  deriving Repr, DecidableEq

/-- A parsed or unparseable HTTP response body. `obj detail` is a JSON
object whose optional `detail` field the error paths read;
`docs` is a JSON array of documents (the `/documents/` and `/search/`
payloads); `unparseable` makes `response.json()` throw. -/
inductive Body where
  | docs (xs : List Document)
  | obj (detail : Option String)
  | unparseable
  deriving Repr, DecidableEq

/-- Outcome of one `fetch`: either a response with an HTTP status and a
body, or a transport-level failure (network unreachable, timeout), on
which the `fetch` promise rejects with an error message. -/
inductive FetchOutcome where
  | response (status : Nat) (body : Body)
  | transportFailure (msg : String)
  deriving Repr, DecidableEq

/-- What a caller of `apiCall` observes: the success payload or one of
three error kinds. `authError` is the session-expired path taken on
HTTP 401, `requestError` carries the reason parsed from the body of any
other non-success response, `transportError` is the rethrown `fetch`
rejection. -/
inductive ApiResult where
  | success (payload : Body)
  | authError (msg : String)
  | requestError (msg : String)
  | transportError (msg : String)
  deriving Repr, DecidableEq

/-- JS `response.ok`: status in the range 200-299. -/
def responseOk (status : Nat) : Bool :=
  decide (200 ≤ status) && decide (status < 300)

/-- The function `logout()`: clears `currentUser`, `accessToken`, the persisted
`localStorage` token, and empties `documents` (then shows the login
page, which leaves the modelled state untouched). -/
def logout (s : ClientState) : ClientState :=
  { s with currentUser := none, accessToken := none,
           localToken := none, documents := [] }

/-- The message of the error thrown by `apiCall` on HTTP 401. -/
def sessionExpiredMsg : String := "Session expired. Please login again."

/-- The reason `apiCall` falls back to when an error body is not
parseable JSON (`.catch(() => ({ detail: 'Request failed' }))`). -/
def requestFailedMsg : String := "Request failed"

/-- Models `errorData.detail || fallback`: JS `||` treats a missing or empty
`detail` as falsy. -/
def detailOr (body : Body) (fallback : String) : String :=
  match body with
  | .obj (some d) => if d == "" then fallback else d
  | _ => fallback

/-- The function `apiCall(endpoint, options)`, lines 9-45 of `Front.js`: given the
outcome of the underlying `fetch`, returns the possibly-updated client
state paired with what the caller observes. On a non-ok response it
checks 401 first (logs the user out and throws the session-expired
error); otherwise it parses the body, falling back to
`{detail: 'Request failed'}` when parsing fails, and throws
`errorData.detail || 'HTTP <status>'`. A transport failure is rethrown
as-is. -/
def apiCall (s : ClientState) (outcome : FetchOutcome) : ClientState × ApiResult :=
  match outcome with
  | .transportFailure msg => (s, .transportError msg)
  | .response status body =>
    if responseOk status then
      (s, .success body)
    else if status == 401 then
      (logout s, .authError sessionExpiredMsg)
    else
      let errorData : Body := match body with
        | .unparseable => .obj (some requestFailedMsg)
        | b => b
      (s, .requestError (detailOr errorData ("HTTP " ++ toString status)))

/-- The function `loadDocuments()`, lines 195-205: fetches `/documents/` through
`apiCall`; on success assigns the response array wholesale to the
`documents` global and renders it (`renderDocuments(documents)`); any
thrown error is caught and alerted, leaving state as `apiCall` left
it. -/
def loadDocuments (s : ClientState) (outcome : FetchOutcome) : ClientState :=
  match apiCall s outcome with
  | (s1, .success (.docs xs)) => { s1 with documents := xs, rendered := xs }
  | (s1, _) => s1

/-- The function `performSemanticSearch(query)`, lines 375-384: fetches `/search/`
through `apiCall`; on success renders the result array
(`renderDocuments(searchResults)`) without touching the `documents`
global; any thrown error is caught and alerted. -/
def performSemanticSearch (s : ClientState) (outcome : FetchOutcome) : ClientState :=
  match apiCall s outcome with
  | (s1, .success (.docs xs)) => { s1 with rendered := xs }
  | (s1, _) => s1

/-- Result of one `uploadSingleFile` call as its caller observes it. -/
inductive UploadResult where
  | success
  | failure (msg : String)
  deriving Repr, DecidableEq

/-- The fallback reason in `uploadSingleFile` (`errorData.detail ||
'Upload failed'`). -/
def uploadFailedMsg : String := "Upload failed"

/-- The message of the error `response.json()` throws on an
unparseable body. -/
def jsonParseErrorMsg : String := "Unexpected token in JSON"

/-- The function `uploadSingleFile(file)`, lines 316-359: issues a direct `fetch`
(NOT through `apiCall`) posting the multipart body. On a non-ok
response it parses the body and throws `errorData.detail || 'Upload
failed'`; an unparseable body makes `response.json()` itself throw.
The catch block rethrows, so the caller sees the failure message.
No branch touches the session or the document collection. -/
def uploadSingleFile (outcome : FetchOutcome) : UploadResult :=
  match outcome with
  | .transportFailure msg => .failure msg
  | .response status body =>
    if responseOk status then .success
    else match body with
      | .unparseable => .failure jsonParseErrorMsg
      | b => .failure (detailOr b uploadFailedMsg)

/-- The function `uploadSingleFile` with its (absent) effect on the client state made
explicit: the function reads `accessToken` to build the request header
but never assigns to any global. -/
def uploadSingleFileStep (s : ClientState) (outcome : FetchOutcome) :
    ClientState × UploadResult :=
  (s, uploadSingleFile outcome)

/-- The fallback reason in `downloadDocument` (`errorData.detail ||
'Download failed'`). -/
def downloadFailedMsg : String := "Download failed"

/-- The function `downloadDocument(docId)`, lines 463-489: issues a direct `fetch`
(NOT through `apiCall`). On success it triggers a browser download; on
a non-ok response it throws `errorData.detail || 'Download failed'`,
and the catch block alerts a generic message. No branch touches the
session or the document collection. -/
def downloadDocument (s : ClientState) (outcome : FetchOutcome) :
    ClientState × UploadResult :=
  match outcome with
  | .transportFailure msg => (s, .failure msg)
  | .response status body =>
    if responseOk status then (s, .success)
    else match body with
      | .unparseable => (s, .failure jsonParseErrorMsg)
      | b => (s, .failure (detailOr b downloadFailedMsg))

/-! ### Search input: debounce and settle (lines 362-373) -/

/-- One `input` event on the search box: its arrival time (ms) and the
input's value at that moment. -/
structure Keystroke where
  time : Nat
  value : String
  deriving Repr, DecidableEq

/-- Which keystrokes' 500ms timers actually fire. Each `input` event
runs `clearTimeout(searchTimeout)` and schedules a new timer 500ms out,
so a keystroke's timer fires iff the next keystroke (times are taken
strictly increasing) arrives no earlier than 500ms later; the last
keystroke's timer always fires. -/
def debounceFired : List Keystroke → List Keystroke
  | [] => []
  | [k] => [k]
  | k :: k2 :: rest =>
    if k2.time < k.time + 500 then debounceFired (k2 :: rest)
    else k :: debounceFired (k2 :: rest)

/-- What the timer callback decides to do once a query settles. -/
inductive SettleAction where
  | search (q : String)
  | revert
  | noop
  deriving Repr, DecidableEq

/-- JS `String.prototype.toLowerCase` (modelled on the character list
so that it evaluates; ASCII case mapping). -/
def jsToLower (s : String) : String :=
  ⟨s.data.map Char.toLower⟩

/-- JS `String.prototype.trim`: drops leading and trailing whitespace
(modelled on the character list so that it evaluates). -/
def jsTrim (s : String) : String :=
  ⟨((s.data.dropWhile Char.isWhitespace).reverse.dropWhile Char.isWhitespace).reverse⟩

/-- The body of the debounce callback, lines 365-372: trims the input
value, dispatches a semantic search when the trimmed length is at least
3, re-renders the cached collection when it is zero, and otherwise does
nothing. -/
def settle (raw : String) : SettleAction :=
  let searchTerm := jsTrim raw
  if 3 ≤ searchTerm.length then .search searchTerm
  else if searchTerm.length == 0 then .revert
  else .noop

/-- The queries actually dispatched to `/search/` for a keystroke
sequence: one per fired timer whose settled value has length ≥ 3. The
callback reads `e.target.value`, the input's live value, which at
firing time is the value of the keystroke that armed the timer (no
later keystroke arrived before it fired). -/
def dispatchedQueries (ks : List Keystroke) : List String :=
  (debounceFired ks).filterMap fun k =>
    match settle k.value with
    | .search q => some q
    | _ => none

/-- The settled-query step with its network effect made explicit: the
state after the callback runs, paired with the query sent to
`/search/`, if any (`encodeURIComponent` is elided). `outcome` is the
response the dispatched search would receive. -/
def settleStep (s : ClientState) (raw : String) (outcome : FetchOutcome) :
    ClientState × Option String :=
  match settle raw with
  | .search q => (performSemanticSearch s outcome, some q)
  | .revert => ({ s with rendered := s.documents }, none)
  | .noop => (s, none)

/-! ### Search concurrency (lines 362-384) -/

/-- An event in the life of the search box: a dispatch of query `q`
(the `seq`-th search dispatched), or the arrival of the successful
response to dispatch `seq` carrying `results`. The code stores no
sequence number; `seq` only labels which dispatch a response answers. -/
inductive SearchEvent where
  | dispatch (seq : Nat) (q : String)
  | resolve (seq : Nat) (results : List Document)
  deriving Repr, DecidableEq

/-- One search event against the client state. A dispatch changes
nothing (the request is merely in flight); a resolving response runs
the tail of `performSemanticSearch`, which renders the results
unconditionally — no field of the state records which dispatch was
most recent, so `seq` cannot be (and is not) consulted. -/
def searchEventStep (s : ClientState) (e : SearchEvent) : ClientState :=
  match e with
  | .dispatch _ _ => s
  | .resolve _ results => performSemanticSearch s (.response 200 (.docs results))

/-- Runs a sequence of search events in order of occurrence on the
single JS thread. -/
def runSearchEvents (s : ClientState) : List SearchEvent → ClientState
  | [] => s
  | e :: rest => runSearchEvents (searchEventStep s e) rest

/-- The results of the last `resolve` event of a trace, if any. -/
def lastResolve : List SearchEvent → Option (List Document)
  | [] => none
  | .dispatch _ _ :: rest => lastResolve rest
  | .resolve _ r :: rest => some ((lastResolve rest).getD r)

/-! ### Batch upload (lines 290-314) -/

/-- The media-type allow-list of `handleFileUpload`. -/
def allowedTypes : List String :=
  ["application/pdf",
   "application/vnd.openxmlformats-officedocument.wordprocessingml.document",
   "text/plain"]

/-- A selected file: its name, its declared media type (`file.type`),
and the outcome the network would return were it uploaded. -/
structure FileSel where
  name : String
  mimeType : String
  outcome : FetchOutcome
  deriving Repr, DecidableEq

/-- Observable events of a batch upload: the validation alert naming a
rejected file, the start of a file's own multipart request, and its
terminal success or alerted failure. -/
inductive UploadEvent where
  | reject (name : String)
  | uploadStart (name : String)
  | uploadOk (name : String)
  | uploadFail (name : String) (msg : String)
  deriving Repr, DecidableEq

/-- The function `handleFileUpload(files)`, lines 290-314: iterates the selection in
order; a file whose type is not in the allow-list gets one alert naming
it and `continue`; every other file is awaited through
`uploadSingleFile` — the `await` inside the `for` loop means the next
file's request starts only after the current one settles — and a
failure is alerted naming the file, without aborting the loop.
(The final `loadDocuments()` refresh and input reset follow the loop;
see `loadDocuments`.) -/
def handleFileUpload : List FileSel → List UploadEvent
  | [] => []
  | file :: rest =>
    (if allowedTypes.contains file.mimeType then
      match uploadSingleFile file.outcome with
      | .success => [.uploadStart file.name, .uploadOk file.name]
      | .failure msg => [.uploadStart file.name, .uploadFail file.name msg]
    else
      [.reject file.name]) ++ handleFileUpload rest

/-- Names of the files whose upload was actually started, in order. -/
def uploadsOf : List UploadEvent → List String
  | [] => []
  | .uploadStart n :: rest => n :: uploadsOf rest
  | _ :: rest => uploadsOf rest

/-- Names of the files rejected by validation, in order. -/
def rejectsOf : List UploadEvent → List String
  | [] => []
  | .reject n :: rest => n :: rejectsOf rest
  | _ :: rest => rejectsOf rest

/-- Strict sequentiality of an upload trace: every started upload
reaches its own terminal event (success or failure, for the same file)
before any other event occurs. -/
def wellSequenced : List UploadEvent → Bool
  | [] => true
  | .reject _ :: rest => wellSequenced rest
  | .uploadStart n :: .uploadOk m :: rest => n == m && wellSequenced rest
  | .uploadStart n :: .uploadFail m _ :: rest => n == m && wellSequenced rest
  | _ => false

/-! ### Local filtering (lines 390-425) -/

/-- The startsWith test on character lists. -/
def listStartsWith : List Char → List Char → Bool
  | _, [] => true
  | [], _ :: _ => false
  | a :: as, b :: bs => a == b && listStartsWith as bs

/-- Substring occurrence on character lists. -/
def listContainsSub (pat : List Char) : List Char → Bool
  | [] => listStartsWith [] pat
  | c :: tl => listStartsWith (c :: tl) pat || listContainsSub pat tl

/-- JS `String.prototype.includes`. -/
def strIncludes (s pat : String) : Bool :=
  listContainsSub pat.toList s.toList

/-- Milliseconds per day. -/
def msPerDay : Int := 24 * 60 * 60 * 1000

/-- Abstraction of `Date.toDateString()` equality: two instants fall on
the same calendar day iff their epoch-millisecond values floor-divide
to the same day number. -/
def sameCalendarDay (t1 t2 : Int) : Bool :=
  t1.fdiv msPerDay == t2.fdiv msPerDay

/-- The `switch (dateFilter)` of lines 409-420: `today` compares
calendar dates, `week` keeps `docDate >= now - 7*24*60*60*1000`,
`month` keeps `docDate >= now - 30*24*60*60*1000`, and any other value
keeps everything (the `default` arm). -/
def dateMatch (dateFilter : String) (docDate now : Int) : Bool :=
  if dateFilter == "today" then sameCalendarDay docDate now
  else if dateFilter == "week" then decide (now - 7 * msPerDay ≤ docDate)
  else if dateFilter == "month" then decide (now - 30 * msPerDay ≤ docDate)
  else true

/-- The author test of line 402: `doc.author && doc.author.includes(authorFilter)`. -/
def authorMatch (author : Option String) (authorFilter : String) : Bool :=
  match author with
  | some a => strIncludes a authorFilter
  | none => false

/-- The function `filterDocuments()`, lines 390-425: reads the three dropdown values
(the category value lowercased), starts from the `documents` global and
applies up to three `Array.filter` passes — category equality on
lowercased names, author substring containment, date range — each
skipped when its dropdown value is the empty string (JS falsy), then
renders the result. Returns the filtered list. -/
def filterDocuments (documents : List Document)
    (categoryValue authorFilter dateFilter : String) (now : Int) : List Document :=
  let categoryFilter := jsToLower categoryValue
  let fd0 := documents
  let fd1 := if categoryFilter == "" then fd0
    else fd0.filter fun doc => jsToLower doc.category == categoryFilter
  let fd2 := if authorFilter == "" then fd1
    else fd1.filter fun doc => authorMatch doc.author authorFilter
  let fd3 := if dateFilter == "" then fd2
    else fd2.filter fun doc => dateMatch dateFilter doc.upload_date now
  fd3

/-- The single conjunctive predicate the three filter passes amount to:
each dropdown either imposes no constraint (empty value) or its
condition must hold, and all selected conditions must hold together. -/
def filterPred (categoryValue authorFilter dateFilter : String) (now : Int)
    (doc : Document) : Bool :=
  (jsToLower categoryValue == "" || jsToLower doc.category == jsToLower categoryValue)
    && (authorFilter == "" || authorMatch doc.author authorFilter)
    && (dateFilter == "" || dateMatch dateFilter doc.upload_date now)

/-- The function `filterDocuments` as a step on the client state, with its (absent)
network effect made explicit: it recomputes the rendered grid from the
`documents` global and issues no request. -/
def filterStep (s : ClientState)
    (categoryValue authorFilter dateFilter : String) (now : Int) :
    ClientState × Option String :=
  ({ s with rendered := filterDocuments s.documents categoryValue authorFilter dateFilter now },
   none)

/-! ### Concrete fixtures used by witnesses and counterexamples -/

/-- A sample HR document. -/
def docA : Document :=
  ⟨"d1", "hr_policy.txt", "HR", some "HR Department", 1000, none⟩

/-- A sample Finance document. -/
def docB : Document :=
  ⟨"d2", "quarterly_report.txt", "Finance", some "Finance Team", 2000, none⟩

/-- A logged-in client state holding one cached document. -/
def exState : ClientState :=
  ⟨some ⟨"admin", "admin"⟩, some "tok123", some "tok123", [docA], [docA]⟩

/-- A successful upload response (the created document summary). -/
def okUpload : FetchOutcome := .response 200 (.obj none)

/-- Batch fixture: a valid PDF. -/
def fileA : FileSel := ⟨"report.pdf", "application/pdf", okUpload⟩

/-- Batch fixture: a file of an unsupported media type. -/
def fileBad : FileSel := ⟨"notes.exe", "application/x-msdownload", okUpload⟩

/-- Batch fixture: a valid plain-text file. -/
def fileC : FileSel := ⟨"todo.txt", "text/plain", okUpload⟩

/-! ## Theorems -/

/-- Helper: a successful search response renders its results and
changes nothing else. -/
theorem semanticSearch_ok_eq (s : ClientState) (xs : List Document) :
    performSemanticSearch s (.response 200 (.docs xs)) = { s with rendered := xs } := rfl

/-- C10: `logout()` clears the user profile, the in-memory token, the
persisted token, and empties the cached document collection; it is
idempotent; and the 401 path of `apiCall` (which calls `logout`) also
leaves the collection empty. -/
theorem logout_clears_all (s : ClientState) :
    (logout s).currentUser = none ∧ (logout s).accessToken = none ∧
    (logout s).localToken = none ∧ (logout s).documents = [] ∧
    logout (logout s) = logout s ∧
    (∀ body : Body, ((apiCall s (.response 401 body)).1).documents = []) :=
  ⟨rfl, rfl, rfl, rfl, rfl, fun _ => rfl⟩

/-- C3: `apiCall` classifies every outcome: a transport failure is
raised as the distinct transport-error kind carrying the transport
message; a non-success, non-401 response with an unparseable body
yields the generic "Request failed" reason; and on any response the
caller observes a success payload, the session-expired auth error, or
a request error — never the raw transport object. -/
theorem apiCall_error_taxonomy (s : ClientState) (status : Nat) (m : String)
    (body : Body) :
    ((apiCall s (.transportFailure m)).2 = .transportError m)
    ∧ (responseOk status = false → status ≠ 401 →
        (apiCall s (.response status .unparseable)).2 = .requestError requestFailedMsg)
    ∧ ((∃ p, (apiCall s (.response status body)).2 = .success p)
       ∨ (apiCall s (.response status body)).2 = .authError sessionExpiredMsg
       ∨ (∃ r, (apiCall s (.response status body)).2 = .requestError r)) := by
  refine ⟨rfl, ?_, ?_⟩
  · intro hok h401
    have h401' : (status == 401) = false := by
      simpa using h401
    simp [apiCall, hok, h401', detailOr, requestFailedMsg]
  · simp only [apiCall]
    split
    · exact Or.inl ⟨body, rfl⟩
    · split
      · exact Or.inr (Or.inl rfl)
      · exact Or.inr (Or.inr ⟨_, rfl⟩)

/-- Witness for C3 at a concrete input: a 500 response with an
unparseable body comes back as the generic request error. -/
theorem apiCall_error_taxonomy_witness :
    (apiCall exState (.response 500 .unparseable)).2 = .requestError requestFailedMsg :=
  (apiCall_error_taxonomy exState 500 "x" .unparseable).2.1 (by decide) (by decide)

/-- C2 counterexample: an upload whose `fetch` comes back 401 does NOT
reset the session — `uploadSingleFile` bypasses `apiCall`, so the
token survives and the surfaced message is the body's detail, not the
session-expired message. -/
theorem upload_401_keeps_session :
    (uploadSingleFileStep exState (.response 401 (.obj (some "Not authenticated")))).1
        = exState
    ∧ (uploadSingleFileStep exState (.response 401 (.obj (some "Not authenticated")))).2
        = .failure "Not authenticated"
    ∧ exState.accessToken = some "tok123"
    ∧ "Not authenticated" ≠ sessionExpiredMsg :=
  ⟨rfl, rfl, rfl, by decide⟩

/-- C2 amended: a 401 received by any call routed through `apiCall`
(document list, single-document fetch, search, profile, signup) resets
the session and raises the distinguishable session-expired error, but
the upload and download paths issue their own `fetch` and a 401 there
leaves the session untouched. -/
theorem auth401_reset_only_via_apiCall (s : ClientState) (body : Body) :
    apiCall s (.response 401 body) = (logout s, .authError sessionExpiredMsg)
    ∧ loadDocuments s (.response 401 body) = logout s
    ∧ performSemanticSearch s (.response 401 body) = logout s
    ∧ (uploadSingleFileStep s (.response 401 body)).1 = s
    ∧ (downloadDocument s (.response 401 body)).1 = s := by
  refine ⟨rfl, rfl, rfl, rfl, ?_⟩
  cases body <;> rfl

/-- C4 counterexample: a successful semantic search renders its result
but leaves the cached `documents` collection untouched, so the cached
collection does not equal the search result. -/
theorem search_leaves_collection :
    (performSemanticSearch exState (.response 200 (.docs [docB]))).documents = [docA]
    ∧ (performSemanticSearch exState (.response 200 (.docs [docB]))).rendered = [docB]
    ∧ [docA] ≠ [docB] :=
  ⟨rfl, rfl, by decide⟩

/-- C4 amended: a successful list fetch replaces the cached collection
(and the rendered view) wholesale with the server's array; a
successful search replaces only the rendered view wholesale, leaving
the cached collection unchanged; neither patches incrementally. -/
theorem fetch_replacement_semantics (s : ClientState) (xs : List Document) :
    loadDocuments s (.response 200 (.docs xs))
        = { s with documents := xs, rendered := xs }
    ∧ performSemanticSearch s (.response 200 (.docs xs))
        = { s with rendered := xs } :=
  ⟨rfl, rfl⟩

/-- C1 counterexample: dispatches S1 then S2; S2's response arrives
first, then S1's stale response arrives and overwrites the rendered
view — the code compares no dispatch sequence number. -/
theorem stale_search_response_overwrites :
    (runSearchEvents exState
        [.dispatch 1 "alpha", .dispatch 2 "beta",
         .resolve 2 [docB], .resolve 1 [docA]]).rendered = [docA]
    ∧ [docA] ≠ [docB] :=
  ⟨rfl, by decide⟩

/-- C1 amended: the rendered view always reflects the most recently
ARRIVED successful search response (arrival order, last writer wins),
not the most recently dispatched query; the cached collection is never
touched by search traffic. -/
theorem search_render_last_arrival (s : ClientState) (evs : List SearchEvent) :
    (runSearchEvents s evs).rendered = (lastResolve evs).getD s.rendered
    ∧ (runSearchEvents s evs).documents = s.documents := by
  induction evs generalizing s with
  | nil => exact ⟨rfl, rfl⟩
  | cons e rest ih =>
    cases e with
    | dispatch seq q =>
      simpa [runSearchEvents, searchEventStep, lastResolve] using ih s
    | resolve seq r =>
      have h := ih { s with rendered := r }
      constructor
      · show (runSearchEvents { s with rendered := r } rest).rendered = _
        rw [h.1]
        simp [lastResolve]
      · show (runSearchEvents { s with rendered := r } rest).documents = _
        rw [h.2]

/-- Helper: in a burst (every consecutive gap under 500ms) only the
last keystroke's timer fires. -/
theorem debounceFired_burst (k : Keystroke) (ks : List Keystroke)
    (hb : List.Chain' (fun a b => b.time < a.time + 500) (k :: ks)) :
    debounceFired (k :: ks) = [(k :: ks).getLast (by simp)] := by
  induction ks generalizing k with
  | nil => rfl
  | cons k2 rest ih =>
    rw [List.chain'_cons] at hb
    have h2 := ih k2 hb.2
    simp only [debounceFired, if_pos hb.1, h2, List.getLast_cons_cons]

/-- C6: each keystroke resets the 500ms debounce window, so for any
nonempty keystroke burst whose consecutive gaps are all under 500ms,
exactly one timer fires — the last keystroke's — and the dispatched
queries are exactly those of that final value alone; typing "a", "ab",
"abc" within 500ms therefore dispatches exactly the single query
"abc" (see the witness). -/
theorem debounce_single_dispatch (ks : List Keystroke) (hne : ks ≠ [])
    (hburst : List.Chain' (fun a b => b.time < a.time + 500) ks) :
    debounceFired ks = [ks.getLast hne]
    ∧ dispatchedQueries ks = dispatchedQueries [ks.getLast hne] := by
  cases ks with
  | nil => exact absurd rfl hne
  | cons k rest =>
    have h := debounceFired_burst k rest hburst
    refine ⟨h, ?_⟩
    simp only [dispatchedQueries, h, debounceFired]

/-- Witness for C6: the keystrokes "a" at 0ms, "ab" at 100ms, "abc" at
200ms fire one timer and dispatch exactly the query "abc". -/
theorem debounce_single_dispatch_witness :
    debounceFired [⟨0, "a"⟩, ⟨100, "ab"⟩, ⟨200, "abc"⟩] = [⟨200, "abc"⟩]
    ∧ dispatchedQueries [⟨0, "a"⟩, ⟨100, "ab"⟩, ⟨200, "abc"⟩] = ["abc"] := by
  have h := debounce_single_dispatch [⟨0, "a"⟩, ⟨100, "ab"⟩, ⟨200, "abc"⟩]
      (by simp) (by simp [List.chain'_cons])
  exact ⟨h.1, by rw [h.2]; rfl⟩

/-- C7: once a query settles, a trimmed length of at least 3 issues the
remote search (whose successful result wholesale-replaces the rendered
view, leaving the cached collection alone), an empty trimmed query
reverts the rendered view to the cached collection with no remote
call, and a trimmed length of 1 or 2 does nothing at all. -/
theorem settled_query_cases (s : ClientState) (raw : String)
    (outcome : FetchOutcome) (xs : List Document) :
    (3 ≤ (jsTrim raw).length →
      (settleStep s raw outcome).2 = some (jsTrim raw)
      ∧ settleStep s raw (.response 200 (.docs xs))
          = ({ s with rendered := xs }, some (jsTrim raw)))
    ∧ ((jsTrim raw).length = 0 →
      settleStep s raw outcome = ({ s with rendered := s.documents }, none))
    ∧ ((jsTrim raw).length = 1 ∨ (jsTrim raw).length = 2 →
      settleStep s raw outcome = (s, none)) := by
  refine ⟨fun h3 => ?_, fun h0 => ?_, fun h12 => ?_⟩
  · constructor
    · simp [settleStep, settle, if_pos h3]
    · simp [settleStep, settle, if_pos h3, semanticSearch_ok_eq]
  · have hn3 : ¬ 3 ≤ (jsTrim raw).length := by omega
    simp [settleStep, settle, if_neg hn3, h0]
  · have hn3 : ¬ 3 ≤ (jsTrim raw).length := by omega
    have hn0 : ¬ (jsTrim raw).length = 0 := by omega
    simp [settleStep, settle, if_neg hn3, hn0]

/-- Witness for C7 at concrete inputs: "abc" dispatches the query and
renders the result, "ab" does nothing, "" reverts to the cached
collection. -/
theorem settled_query_cases_witness :
    settleStep exState "abc" (.response 200 (.docs [docB]))
        = ({ exState with rendered := [docB] }, some "abc")
    ∧ settleStep exState "ab" okUpload = (exState, none)
    ∧ settleStep exState "" okUpload
        = ({ exState with rendered := exState.documents }, none) :=
  ⟨((settled_query_cases exState "abc" okUpload [docB]).1 (by decide)).2,
   (settled_query_cases exState "ab" okUpload []).2.2 (by decide),
   (settled_query_cases exState "" okUpload []).2.1 (by decide)⟩

/-- Helper: the uploads a batch starts are exactly the allow-listed
files, in selection order — regardless of any per-file outcome. -/
theorem uploadsOf_handleFileUpload (files : List FileSel) :
    uploadsOf (handleFileUpload files)
      = (files.filter fun f => allowedTypes.contains f.mimeType).map FileSel.name := by
  induction files with
  | nil => rfl
  | cons f rest ih =>
    by_cases hf : f.mimeType ∈ allowedTypes
    · cases hu : uploadSingleFile f.outcome with
      | success => simp [handleFileUpload, uploadsOf, hf, hu, List.filter_cons, ih]
      | failure m => simp [handleFileUpload, uploadsOf, hf, hu, List.filter_cons, ih]
    · simp [handleFileUpload, uploadsOf, hf, List.filter_cons, ih]

/-- Helper: the validation rejects of a batch are exactly the files
outside the allow-list, each alerted once by name, in order. -/
theorem rejectsOf_handleFileUpload (files : List FileSel) :
    rejectsOf (handleFileUpload files)
      = (files.filter fun f => !allowedTypes.contains f.mimeType).map FileSel.name := by
  induction files with
  | nil => rfl
  | cons f rest ih =>
    by_cases hf : f.mimeType ∈ allowedTypes
    · cases hu : uploadSingleFile f.outcome with
      | success => simp [handleFileUpload, rejectsOf, hf, hu, List.filter_cons, ih]
      | failure m => simp [handleFileUpload, rejectsOf, hf, hu, List.filter_cons, ih]
    · simp [handleFileUpload, rejectsOf, hf, List.filter_cons, ih]

/-- Helper: a batch trace is strictly sequential — each started upload
reaches its own terminal event before the next file is considered. -/
theorem wellSequenced_handleFileUpload (files : List FileSel) :
    wellSequenced (handleFileUpload files) = true := by
  induction files with
  | nil => rfl
  | cons f rest ih =>
    by_cases hf : f.mimeType ∈ allowedTypes
    · cases hu : uploadSingleFile f.outcome with
      | success => simp [handleFileUpload, hf, hu, wellSequenced, ih]
      | failure m => simp [handleFileUpload, hf, hu, wellSequenced, ih]
    · simp [handleFileUpload, hf, wellSequenced, ih]

/-- C5: in every batch, the files outside the media-type allow-list are
each reported once by name and excluded, every remaining file's upload
is started in batch order (validation rejections and upload failures
never block later files), the trace is strictly sequential (upload N+1
starts only after upload N reaches a terminal state), and in the
concrete 3-file scenario with only file #2 invalid, files #1 and #3
upload and exactly one failure names file #2. -/
theorem handleFileUpload_batch (files : List FileSel) :
    uploadsOf (handleFileUpload files)
        = (files.filter fun f => allowedTypes.contains f.mimeType).map FileSel.name
    ∧ rejectsOf (handleFileUpload files)
        = (files.filter fun f => !allowedTypes.contains f.mimeType).map FileSel.name
    ∧ wellSequenced (handleFileUpload files) = true
    ∧ handleFileUpload [fileA, fileBad, fileC]
        = [.uploadStart "report.pdf", .uploadOk "report.pdf", .reject "notes.exe",
           .uploadStart "todo.txt", .uploadOk "todo.txt"]
    ∧ rejectsOf (handleFileUpload [fileA, fileBad, fileC]) = ["notes.exe"] :=
  ⟨uploadsOf_handleFileUpload files, rejectsOf_handleFileUpload files,
   wellSequenced_handleFileUpload files, by decide, by decide⟩

/-- Helper: the three sequential filter passes of `filterDocuments`
coincide with one pass of the conjunctive predicate. -/
theorem filterDocuments_eq_filterPred (docs : List Document)
    (categoryValue authorFilter dateFilter : String) (now : Int) :
    filterDocuments docs categoryValue authorFilter dateFilter now
      = docs.filter (filterPred categoryValue authorFilter dateFilter now) := by
  unfold filterDocuments filterPred
  by_cases hc : (jsToLower categoryValue == "") = true
    <;> by_cases ha : (authorFilter == "") = true
    <;> by_cases hd : (dateFilter == "") = true
    <;> simp [hc, ha, hd, List.filter_filter,
              Bool.and_comm, Bool.and_left_comm, Bool.and_assoc]

/-- C8: filtering keeps exactly the documents passing every selected
filter, composed with logical AND; the `today` range compares calendar
days, `week` keeps upload dates at most 7×24h before now, `month`
keeps those at most 30×24h before now (fixed windows), and an absent
(empty) selection imposes no constraint at all. -/
theorem filterDocuments_and_semantics (docs : List Document)
    (categoryValue authorFilter dateFilter : String) (now : Int) :
    filterDocuments docs categoryValue authorFilter dateFilter now
        = docs.filter (filterPred categoryValue authorFilter dateFilter now)
    ∧ (∀ td : Int, dateMatch "today" td now = sameCalendarDay td now)
    ∧ (∀ td : Int, dateMatch "week" td now = decide (now - 7 * msPerDay ≤ td))
    ∧ (∀ td : Int, dateMatch "month" td now = decide (now - 30 * msPerDay ≤ td))
    ∧ (∀ doc : Document, filterPred "" "" "" now doc = true)
    ∧ filterDocuments docs "" "" "" now = docs := by
  refine ⟨filterDocuments_eq_filterPred docs _ _ _ now,
          fun td => rfl, fun td => rfl, fun td => rfl, fun doc => rfl, ?_⟩
  rw [filterDocuments_eq_filterPred]
  simp [filterPred, show jsToLower "" = "" from rfl]

/-- C9: `filterDocuments`, as a step on the client state, never mutates
the cached document collection, issues no network request, recomputes
the rendered view from the cached collection, and is idempotent:
re-running it with the same dropdown values at the same instant on the
resulting state changes nothing. -/
theorem filterStep_pure_idempotent (s : ClientState)
    (categoryValue authorFilter dateFilter : String) (now : Int) :
    (filterStep s categoryValue authorFilter dateFilter now).1.documents = s.documents
    ∧ (filterStep s categoryValue authorFilter dateFilter now).2 = none
    ∧ (filterStep s categoryValue authorFilter dateFilter now).1.rendered
        = filterDocuments s.documents categoryValue authorFilter dateFilter now
    ∧ filterStep (filterStep s categoryValue authorFilter dateFilter now).1
          categoryValue authorFilter dateFilter now
        = filterStep s categoryValue authorFilter dateFilter now :=
  ⟨rfl, rfl, rfl, rfl⟩

end Front
